import Mathlib

/-!
# CRUD_Website_GO: the five route handlers of `main.go`

`main.go` registers five closures on an echo router.  Each closure decodes
its input, calls methods of the PocketBase data-access object (`app.Dao()`)
and writes one JSON response.  The embedding below keeps that shape:

* the data-access object is a record of functions over an arbitrary store
  state `σ` (explicit state passing);
* every handler returns an `Outcome`: what the closure returned (an error, or
  the response it wrote), the sequence of data-access calls it made, and the
  store state afterwards.

The `float64` price is never computed with, only moved, so it is carried as
its IEEE-754 bit pattern.
-/

set_option autoImplicit false

namespace CrudWebsite

/-! ## Data model -/

/-- Go `float64`, carried as its 64-bit pattern (the handlers only move it). -/
structure Float64 where
  bits : Nat
deriving DecidableEq, Repr

/-- The zero value of `float64` (`+0.0`). -/
def Float64.zero : Float64 := ⟨0⟩

/-- Go `error`, represented by the text `err.Error()` returns. -/
abbrev Error := String

/-- The `Item` struct of `main.go` (lines 14-19). -/
structure Item where
  Title : String
  Description : String
  Price : Float64
deriving DecidableEq, Repr

/-- Value of `new(Item)`: every field holds its zero value. -/
def newItem : Item := ⟨"", "", Float64.zero⟩

/-- A value stored under a field name of a record. -/
inductive Value where
  | str (s : String)
  | num (x : Float64)
deriving DecidableEq, Repr

/-- Modelled from the spec: a collection of the storage gateway (PocketBase
`models.Collection`), a named schema with its own identifier. -/
structure Collection where
  id : String
  name : String
deriving DecidableEq, Repr

/-- Modelled from the spec: a record of the storage gateway (PocketBase
`models.Record`): an identifier, a schema reference, the flag that tells a
record not yet persisted from a persisted one, and a field mapping. -/
structure Record where
  id : String
  collection : Collection
  isNew : Bool
  data : List (String × Value)
deriving DecidableEq, Repr

/-- Modelled from the spec: `models.NewRecord(collection)`, the empty record
scoped to a collection (no identifier yet, not persisted, no fields). -/
def NewRecord (collection : Collection) : Record :=
  ⟨"", collection, true, []⟩

/-- Modelled from the spec: `record.Set(key, value)`, set-field-by-name on
the field mapping; nothing else of the record changes. -/
def Record.Set (record : Record) (key : String) (value : Value) : Record :=
  ⟨record.id, record.collection, record.isNew,
    (key, value) :: record.data.filter (fun kv => kv.1 != key)⟩

/-- Modelled from the spec: `record.Get(key)`, read-field-by-name. -/
def Record.Get (record : Record) (key : String) : Option Value :=
  record.data.lookup key

/-! ## The request side (echo) -/

/-- The members of a decoded JSON body that are relevant to `Item`; `none`
means the member is absent from the body. -/
structure Payload where
  title : Option String
  description : Option String
  price : Option Float64
deriving DecidableEq, Repr

/-- The part of `echo.Context` the handlers read: the `id` path parameter and
the result of decoding the request body (an error when it is malformed). -/
structure Context where
  id : String
  decoded : Except Error Payload

/-- Modelled from the spec: `c.Param(name)`; the routes declare the single
parameter `id`, any other name yields the empty string. -/
def Context.Param (c : Context) (name : String) : String :=
  if name = "id" then c.id else ""

/-- Modelled from the spec: `c.Bind(item)`, the request binder.  A malformed
body is an error; otherwise every member present in the body overwrites the
corresponding field of `item` and the others are left as they are. -/
def Context.Bind (c : Context) (item : Item) : Except Error Item :=
  match c.decoded with
  | .error err => .error err
  | .ok p =>
    .ok ⟨p.title.getD item.Title, p.description.getD item.Description,
      p.price.getD item.Price⟩

/-! ## The response side -/

/-- Body written by a handler. -/
inductive Body where
  | jsonMap (m : List (String × String))
  | record (r : Record)
  | records (rs : List Record)
  | empty
deriving DecidableEq, Repr

/-- A written response: status code and body. -/
structure Response where
  status : Nat
  body : Body
deriving DecidableEq, Repr

/-- Go `http.StatusOK`. -/
def StatusOK : Nat := 200
/-- Go `http.StatusCreated`. -/
def StatusCreated : Nat := 201
/-- Go `http.StatusNoContent`. -/
def StatusNoContent : Nat := 204
/-- Go `http.StatusNotFound`. -/
def StatusNotFound : Nat := 404
/-- Go `http.StatusInternalServerError`. -/
def StatusInternalServerError : Nat := 500

/-- The call `c.JSON(code, body)`. -/
def JSON (code : Nat) (body : Body) : Response := ⟨code, body⟩

/-- The call `c.NoContent(code)`. -/
def NoContent (code : Nat) : Response := ⟨code, Body.empty⟩

/-- The literal `map[string]string{"message": text}`. -/
def message (text : String) : Body := Body.jsonMap [("message", text)]

/-! ## The storage gateway -/

/-- One call on `app.Dao()`, with its arguments. -/
inductive DaoCall where
  | findCollectionByNameOrId (nameOrId : String)
  | findRecordById (collectionNameOrId : String) (recordId : String)
  | findRecordsByExpr (collectionNameOrId : String)
  | saveRecord (record : Record)
  | deleteRecord (record : Record)
deriving DecidableEq, Repr

/-- Whether a call asks the store to save a record. -/
def DaoCall.isSave : DaoCall → Bool
  | .saveRecord _ => true
  | _ => false

/-- Whether a call asks the store to delete a record. -/
def DaoCall.isDelete : DaoCall → Bool
  | .deleteRecord _ => true
  | _ => false

/-- The methods of `app.Dao()` used by `main.go`, over a store state `σ`.
Lookups read the state; `SaveRecord` and `DeleteRecord` yield the state
afterwards together with their result.  `SaveRecord` works on a pointer: on
success the record as the store left it (generated identifier included) is
returned. -/
structure Dao (σ : Type) where
  FindCollectionByNameOrId : σ → String → Except Error Collection
  FindRecordById : σ → String → String → Except Error Record
  FindRecordsByExpr : σ → String → Except Error (List Record)
  SaveRecord : σ → Record → σ × Except Error Record
  DeleteRecord : σ → Record → σ × Except Error Unit

/-- What running a handler amounts to: the closure returns either an error
(`result = .error err`) or nil after writing a response; `calls` lists the
data-access calls in the order they were made; `store` is the state left. -/
structure Outcome (σ : Type) where
  result : Except Error Response
  calls : List DaoCall
  store : σ

/-! ## The handlers of `main.go` -/

/-- Handler of `POST /items` (`main.go` lines 46-70). -/
def postItems {σ : Type} (dao : Dao σ) (c : Context) (s : σ) : Outcome σ :=
  match c.Bind newItem with
  | .error err => ⟨.error err, [], s⟩
  | .ok item =>
    match dao.FindCollectionByNameOrId s "items" with
    | .error _ =>
      ⟨.ok (JSON StatusInternalServerError (message "Collection not found")),
        [.findCollectionByNameOrId "items"], s⟩
    | .ok collection =>
      let record := NewRecord collection
      let record := record.Set "title" (.str item.Title)
      let record := record.Set "description" (.str item.Description)
      let record := record.Set "price" (.num item.Price)
      match dao.SaveRecord s record with
      | (s', .error err) =>
        ⟨.ok (JSON StatusInternalServerError (message err)),
          [.findCollectionByNameOrId "items", .saveRecord record], s'⟩
      | (s', .ok saved) =>
        ⟨.ok (JSON StatusCreated (.record saved)),
          [.findCollectionByNameOrId "items", .saveRecord record], s'⟩

/-- Handler of `GET /items/:id` (`main.go` lines 73-83). -/
def getItemById {σ : Type} (dao : Dao σ) (c : Context) (s : σ) : Outcome σ :=
  let id := c.Param "id"
  match dao.FindRecordById s "items" id with
  | .error _ =>
    ⟨.ok (JSON StatusNotFound (message "Item not found")),
      [.findRecordById "items" id], s⟩
  | .ok record =>
    ⟨.ok (JSON StatusOK (.record record)), [.findRecordById "items" id], s⟩

/-- Handler of `GET /items` (`main.go` lines 86-94). -/
def getItems {σ : Type} (dao : Dao σ) (_c : Context) (s : σ) : Outcome σ :=
  match dao.FindRecordsByExpr s "items" with
  | .error err =>
    ⟨.ok (JSON StatusInternalServerError (message err)),
      [.findRecordsByExpr "items"], s⟩
  | .ok records =>
    ⟨.ok (JSON StatusOK (.records records)), [.findRecordsByExpr "items"], s⟩

/-- Handler of `PUT /items/:id` (`main.go` lines 97-121). -/
def putItemById {σ : Type} (dao : Dao σ) (c : Context) (s : σ) : Outcome σ :=
  let id := c.Param "id"
  match c.Bind newItem with
  | .error err => ⟨.error err, [], s⟩
  | .ok item =>
    match dao.FindRecordById s "items" id with
    | .error _ =>
      ⟨.ok (JSON StatusNotFound (message "Item not found")),
        [.findRecordById "items" id], s⟩
    | .ok record =>
      let updated := record.Set "title" (.str item.Title)
      let updated := updated.Set "description" (.str item.Description)
      let updated := updated.Set "price" (.num item.Price)
      match dao.SaveRecord s updated with
      | (s', .error err) =>
        ⟨.ok (JSON StatusInternalServerError (message err)),
          [.findRecordById "items" id, .saveRecord updated], s'⟩
      | (s', .ok saved) =>
        ⟨.ok (JSON StatusOK (.record saved)),
          [.findRecordById "items" id, .saveRecord updated], s'⟩

/-- Handler of `DELETE /items/:id` (`main.go` lines 124-139). -/
def deleteItemById {σ : Type} (dao : Dao σ) (c : Context) (s : σ) : Outcome σ :=
  let id := c.Param "id"
  match dao.FindRecordById s "items" id with
  | .error _ =>
    ⟨.ok (JSON StatusNotFound (message "Item not found")),
      [.findRecordById "items" id], s⟩
  | .ok record =>
    match dao.DeleteRecord s record with
    | (s', .error err) =>
      ⟨.ok (JSON StatusInternalServerError (message err)),
        [.findRecordById "items" id, .deleteRecord record], s'⟩
    | (s', .ok _) =>
      ⟨.ok (NoContent StatusNoContent),
        [.findRecordById "items" id, .deleteRecord record], s'⟩

/-! ## Running several creates -/

/-- The record carried by a response answered 201, if the handler wrote one. -/
def createdRecord : Except Error Response → Option Record
  | .ok ⟨status, .record r⟩ => if status = StatusCreated then some r else none
  | _ => none

/-- Serve `POST /items` once per request, in order, on the store the previous
request left.  Yields the records of the responses and the final store when
every request was answered 201, and `none` otherwise. -/
def createAll {σ : Type} (dao : Dao σ) : List Context → σ → Option (List Record × σ)
  | [], s => some ([], s)
  | c :: cs, s =>
    match createdRecord (postItems dao c s).result with
    | none => none
    | some r =>
      match createAll dao cs (postItems dao c s).store with
      | none => none
      | some (rs, s') => some (r :: rs, s')

/-! ## Stores that behave as a map from identifier to record -/

/-- Modelled from the spec: what it means for the storage gateway to behave
as a map from identifier to record.  A found record carries the identifier
asked for, is marked persisted and belongs to the collection the name
resolves to; a successful save keeps collection and fields (and the
identifier of a persisted record), and the saved record is what a lookup of
its identifier then returns; saving a new record adds it to the listing of its
collection under an identifier no listed record has, keeping the listed
records; deleting a found record succeeds and makes its lookup fail. -/
structure MapLike {σ : Type} (dao : Dao σ) : Prop where
  find_spec : ∀ s n id r, dao.FindRecordById s n id = .ok r →
    r.id = id ∧ r.isNew = false ∧ dao.FindCollectionByNameOrId s n = .ok r.collection
  save_spec : ∀ s r s' r', dao.SaveRecord s r = (s', .ok r') →
    r'.collection = r.collection ∧ r'.data = r.data ∧ (r.isNew = false → r'.id = r.id)
  find_save : ∀ s r s' r' n, dao.SaveRecord s r = (s', .ok r') →
    dao.FindCollectionByNameOrId s n = .ok r.collection →
    dao.FindRecordById s' n r'.id = .ok r'
  list_save_new : ∀ s r s' r' n, r.isNew = true → r.id = "" →
    dao.SaveRecord s r = (s', .ok r') →
    dao.FindCollectionByNameOrId s n = .ok r.collection →
    ∃ rs', dao.FindRecordsByExpr s' n = .ok rs' ∧ r' ∈ rs' ∧
      ∀ rs, dao.FindRecordsByExpr s n = .ok rs → ∀ x ∈ rs, x ∈ rs' ∧ x.id ≠ r'.id
  delete_ok : ∀ s n id r, dao.FindRecordById s n id = .ok r →
    ∃ s', dao.DeleteRecord s r = (s', .ok ())
  find_delete : ∀ s n id r s', dao.FindRecordById s n id = .ok r →
    dao.DeleteRecord s r = (s', .ok ()) → ∃ e, dao.FindRecordById s' n id = .error e

/-- Modelled from the spec: a storage gateway that is a map from identifier to
record: the collections that exist and the persisted records. -/
structure MapStore where
  collections : List Collection
  records : List Record
deriving DecidableEq, Repr

/-- Whether a persisted record is the one of this collection and identifier. -/
def sameKey (collection : Collection) (id : String) (r : Record) : Bool :=
  r.collection == collection && r.id == id

/-- A record as a lookup hands it out: marked persisted. -/
def loaded (r : Record) : Record := ⟨r.id, r.collection, false, r.data⟩

/-- The longest identifier length among some records. -/
def maxIdLength : List Record → Nat
  | [] => 0
  | r :: rs => max r.id.length (maxIdLength rs)

/-- A generated identifier: longer than every identifier in the store. -/
def MapStore.freshId (s : MapStore) : String :=
  String.mk (List.replicate (maxIdLength s.records + 1) 'r')

/-- Lookup of a collection by name or identifier. -/
def MapStore.findCollection (s : MapStore) (nameOrId : String) : Except Error Collection :=
  match s.collections.find? (fun c => c.id == nameOrId || c.name == nameOrId) with
  | some c => .ok c
  | none => .error "sql: no rows in result set"

/-- Lookup of a record by identifier within a collection. -/
def MapStore.findRecord (s : MapStore) (nameOrId : String) (id : String) :
    Except Error Record :=
  match s.findCollection nameOrId with
  | .error err => .error err
  | .ok c =>
    match s.records.find? (sameKey c id) with
    | some r => .ok (loaded r)
    | none => .error "sql: no rows in result set"

/-- All records of a collection, in stored order. -/
def MapStore.listRecords (s : MapStore) (nameOrId : String) : Except Error (List Record) :=
  match s.findCollection nameOrId with
  | .error err => .error err
  | .ok c => .ok ((s.records.filter (fun r => r.collection == c)).map loaded)

/-- Insert or update: a new record without identifier gets a generated one;
the record then replaces whatever the store held under its identifier. -/
def MapStore.save (s : MapStore) (r : Record) : MapStore × Except Error Record :=
  if r.collection ∈ s.collections then
    let id := if r.isNew && r.id == "" then s.freshId else r.id
    let saved : Record := ⟨id, r.collection, false, r.data⟩
    (⟨s.collections, s.records.filter (fun x => !sameKey r.collection id x) ++ [saved]⟩,
      .ok saved)
  else
    (s, .error ("no such table: " ++ r.collection.name))

/-- Removal of the record held under the identifier of `r`. -/
def MapStore.delete (s : MapStore) (r : Record) : MapStore × Except Error Unit :=
  (⟨s.collections, s.records.filter (fun x => !sameKey r.collection r.id x)⟩, .ok ())

/-- The data-access object over a `MapStore`. -/
def mapDao : Dao MapStore :=
  ⟨MapStore.findCollection, MapStore.findRecord, MapStore.listRecords,
    MapStore.save, MapStore.delete⟩

/-- The collection `items`. -/
def itemsCollection : Collection := ⟨"c1", "items"⟩

/-- A store without any collection. -/
def emptyStore : MapStore := ⟨[], []⟩

/-- A store in which `items` exists and holds one record, under `a1`. -/
def penStore : MapStore :=
  ⟨[itemsCollection],
    [⟨"a1", itemsCollection, false,
      [("price", .num ⟨15⟩), ("description", .str "Blue ink"), ("title", .str "Pen"),
        ("stock", .num ⟨7⟩)]⟩]⟩

/-! ## Properties of the record operations -/

theorem Record.Get_Set_self (r : Record) (k : String) (v : Value) :
    (r.Set k v).Get k = some v := by
  simp [Record.Set, Record.Get, List.lookup]

theorem lookup_filter_ne (k k' : String) (h : k' ≠ k) (d : List (String × Value)) :
    (d.filter (fun kv => kv.1 != k)).lookup k' = d.lookup k' := by
  induction d with
  | nil => rfl
  | cons kv d ih =>
    obtain ⟨a, b⟩ := kv
    by_cases hak : a = k
    · subst hak
      have hne : (k' == a) = false := by simpa using h
      simp [List.filter, List.lookup, hne, ih]
    · have hak' : (a != k) = true := by simpa using hak
      simp only [List.filter, hak', List.lookup]
      rw [ih]

theorem Record.Get_Set_other (r : Record) (k k' : String) (v : Value) (h : k' ≠ k) :
    (r.Set k v).Get k' = r.Get k' := by
  have hne : (k' == k) = false := by simpa using h
  simp only [Record.Set, Record.Get, List.lookup, hne]
  exact lookup_filter_ne k k' h r.data

/-! ## The map store behaves as a map -/

theorem le_maxIdLength (rs : List Record) (r : Record) (h : r ∈ rs) :
    r.id.length ≤ maxIdLength rs := by
  induction rs with
  | nil => cases h
  | cons x xs ih =>
    simp only [maxIdLength]
    rcases List.mem_cons.mp h with h | h
    · subst h
      exact le_max_left _ _
    · exact le_trans (ih h) (le_max_right _ _)

theorem MapStore.freshId_ne (s : MapStore) (r : Record) (h : r ∈ s.records) :
    r.id ≠ s.freshId := by
  intro heq
  have hle := le_maxIdLength s.records r h
  have hlen : s.freshId.length = maxIdLength s.records + 1 := by
    simp [MapStore.freshId, String.length]
  rw [heq, hlen] at hle
  omega

theorem sameKey_iff (c : Collection) (id : String) (r : Record) :
    sameKey c id r = true ↔ r.collection = c ∧ r.id = id := by
  simp [sameKey]

theorem find_filter_append (c : Collection) (id : String) (rs : List Record)
    (saved : Record) (h : sameKey c id saved = true) :
    (rs.filter (fun x => !sameKey c id x) ++ [saved]).find? (sameKey c id) = some saved := by
  induction rs with
  | nil => simp [List.find?, h]
  | cons x xs ih =>
    by_cases hx : sameKey c id x = true
    · simpa [List.filter, hx] using ih
    · have hx' : sameKey c id x = false := by simpa using hx
      simp [List.filter, hx', List.find?, ih]

theorem find_filter_none (c : Collection) (id : String) (rs : List Record) :
    (rs.filter (fun x => !sameKey c id x)).find? (sameKey c id) = none := by
  induction rs with
  | nil => rfl
  | cons x xs ih =>
    by_cases hx : sameKey c id x = true
    · simp [List.filter, hx, ih]
    · have hx' : sameKey c id x = false := by simpa using hx
      simp [List.filter, hx', List.find?, ih]

theorem MapStore.save_ok (s s' : MapStore) (r r' : Record)
    (h : s.save r = (s', .ok r')) :
    r' = ⟨if r.isNew && r.id == "" then s.freshId else r.id, r.collection, false, r.data⟩ ∧
    s' = ⟨s.collections, s.records.filter (fun x => !sameKey r'.collection r'.id x) ++ [r']⟩ := by
  unfold MapStore.save at h
  split at h
  · simp only [Prod.mk.injEq, Except.ok.injEq] at h
    obtain ⟨h1, h2⟩ := h
    subst h2
    exact ⟨rfl, h1.symm⟩
  · simp at h

theorem mapDao_mapLike : MapLike mapDao where
  find_spec := by
    intro s n id r h
    simp only [mapDao, MapStore.findRecord] at h ⊢
    split at h
    · simp at h
    · rename_i c hc
      split at h
      · rename_i y hy
        simp only [Except.ok.injEq] at h
        subst h
        have hk := (sameKey_iff c id y).mp (List.find?_some hy)
        simp [loaded, hk.1, hk.2, hc]
      · simp at h
  save_spec := by
    intro s r s' r' h
    obtain ⟨h1, -⟩ := MapStore.save_ok s s' r r' h
    subst h1
    refine ⟨rfl, rfl, ?_⟩
    intro hnew
    simp [hnew]
  find_save := by
    intro s r s' r' n h hc
    obtain ⟨h1, h2⟩ := MapStore.save_ok s s' r r' h
    have hcol : r'.collection = r.collection := by rw [h1]
    have hnew : r'.isNew = false := by rw [h1]
    simp only [mapDao] at hc ⊢
    have hc' : s'.findCollection n = .ok r'.collection := by
      rw [hcol, ← hc, h2]
      rfl
    simp only [MapStore.findRecord, hc']
    have hfind : s'.records.find? (sameKey r'.collection r'.id) = some r' := by
      rw [h2]
      exact find_filter_append _ _ _ _ ((sameKey_iff _ _ _).mpr ⟨rfl, rfl⟩)
    rw [hfind]
    cases r'
    simp_all [loaded]
  list_save_new := by
    intro s r s' r' n hnew hid h hc
    obtain ⟨h1, h2⟩ := MapStore.save_ok s s' r r' h
    have hcol : r'.collection = r.collection := by rw [h1]
    have hisNew : r'.isNew = false := by rw [h1]
    have hrid : r'.id = s.freshId := by rw [h1]; simp [hnew, hid]
    simp only [mapDao] at hc ⊢
    have hc' : s'.findCollection n = .ok r.collection := by
      rw [← hc, h2]
      rfl
    have hload : loaded r' = r' := by
      cases r'
      simp_all [loaded]
    refine ⟨_, by simp only [MapStore.listRecords, hc']; rfl, ?_, ?_⟩
    · rw [h2]
      simp only [List.mem_map, List.mem_filter, List.mem_append, List.mem_singleton]
      exact ⟨r', ⟨Or.inr rfl, by simp [hcol]⟩, hload⟩
    · intro rs hrs x hx
      simp only [MapStore.listRecords, hc, Except.ok.injEq] at hrs
      subst hrs
      simp only [List.mem_map, List.mem_filter] at hx
      obtain ⟨y, ⟨hy, hyc⟩, rfl⟩ := hx
      have hne : y.id ≠ s.freshId := s.freshId_ne y hy
      constructor
      · rw [h2]
        simp only [List.mem_map, List.mem_filter, List.mem_append, List.mem_singleton]
        refine ⟨y, ⟨Or.inl ⟨hy, ?_⟩, hyc⟩, rfl⟩
        simp [sameKey, hrid, hne]
      · simpa [loaded, hrid] using hne
  delete_ok := by
    intro s n id r _
    exact ⟨_, rfl⟩
  find_delete := by
    intro s n id r s' h hd
    have hspec : r.id = id ∧ s.findCollection n = .ok r.collection := by
      simp only [mapDao, MapStore.findRecord] at h
      split at h
      · simp at h
      · rename_i c hc
        split at h
        · rename_i y hy
          simp only [Except.ok.injEq] at h
          subst h
          have hk := (sameKey_iff c id y).mp (List.find?_some hy)
          simp [loaded, hk.1, hk.2, hc]
        · simp at h
    simp only [mapDao, MapStore.delete, Prod.mk.injEq, and_true] at hd
    subst hd
    have hc' : MapStore.findCollection
        ⟨s.collections, s.records.filter (fun x => !sameKey r.collection r.id x)⟩ n =
        .ok r.collection := by
      rw [← hspec.2]
      rfl
    simp only [mapDao, MapStore.findRecord, hc', ← hspec.1, find_filter_none]
    exact ⟨_, rfl⟩

/-! ## Single paths through the handlers -/

theorem getItemById_of_error {σ : Type} (dao : Dao σ) (id : String)
    (decoded : Except Error Payload) (s : σ) (err : Error)
    (h : dao.FindRecordById s "items" id = .error err) :
    getItemById dao ⟨id, decoded⟩ s =
      ⟨.ok ⟨404, message "Item not found"⟩, [.findRecordById "items" id], s⟩ := by
  simp [getItemById, Context.Param, h, JSON, StatusNotFound]

theorem getItemById_of_ok {σ : Type} (dao : Dao σ) (id : String)
    (decoded : Except Error Payload) (s : σ) (record : Record)
    (h : dao.FindRecordById s "items" id = .ok record) :
    getItemById dao ⟨id, decoded⟩ s =
      ⟨.ok ⟨200, .record record⟩, [.findRecordById "items" id], s⟩ := by
  simp [getItemById, Context.Param, h, JSON, StatusOK]

theorem deleteItemById_of_error {σ : Type} (dao : Dao σ) (id : String)
    (decoded : Except Error Payload) (s : σ) (err : Error)
    (h : dao.FindRecordById s "items" id = .error err) :
    deleteItemById dao ⟨id, decoded⟩ s =
      ⟨.ok ⟨404, message "Item not found"⟩, [.findRecordById "items" id], s⟩ := by
  simp [deleteItemById, Context.Param, h, JSON, StatusNotFound]

theorem deleteItemById_of_deleted {σ : Type} (dao : Dao σ) (id : String)
    (decoded : Except Error Payload) (s s' : σ) (record : Record)
    (h : dao.FindRecordById s "items" id = .ok record)
    (hd : dao.DeleteRecord s record = (s', .ok ())) :
    deleteItemById dao ⟨id, decoded⟩ s =
      ⟨.ok ⟨204, Body.empty⟩, [.findRecordById "items" id, .deleteRecord record], s'⟩ := by
  simp [deleteItemById, Context.Param, h, hd, NoContent, StatusNoContent]

theorem getItems_result_ok {σ : Type} (dao : Dao σ) (c : Context) (s : σ)
    (rs : List Record) (h : (getItems dao c s).result = .ok ⟨200, .records rs⟩) :
    dao.FindRecordsByExpr s "items" = .ok rs := by
  cases hl : dao.FindRecordsByExpr s "items" with
  | error e => simp [getItems, hl, JSON, StatusInternalServerError, message] at h
  | ok rs' =>
    simp only [getItems, hl, JSON, StatusOK, Except.ok.injEq, Response.mk.injEq,
      Body.records.injEq, true_and] at h
    rw [h]

theorem postItems_created {σ : Type} (dao : Dao σ) (c : Context) (s : σ) (r : Record)
    (h : createdRecord (postItems dao c s).result = some r) :
    ∃ record : Record, record.isNew = true ∧ record.id = "" ∧
      dao.FindCollectionByNameOrId s "items" = .ok record.collection ∧
      dao.SaveRecord s record = ((postItems dao c s).store, .ok r) := by
  cases hB : c.Bind newItem with
  | error e => simp [postItems, hB, createdRecord] at h
  | ok item =>
    cases hcoll : dao.FindCollectionByNameOrId s "items" with
    | error e =>
      simp [postItems, hB, hcoll, createdRecord, JSON, message] at h
    | ok collection =>
      cases hsave : dao.SaveRecord s ((((NewRecord collection).Set "title"
          (.str item.Title)).Set "description" (.str item.Description)).Set "price"
          (.num item.Price)) with
      | mk s' res =>
        cases res with
        | error e =>
          simp [postItems, hB, hcoll, hsave, createdRecord, JSON, message] at h
        | ok saved =>
          simp only [postItems, hB, hcoll, hsave, createdRecord, JSON, StatusCreated,
            if_true, Option.some.injEq] at h
          subst h
          refine ⟨(((NewRecord collection).Set "title" (.str item.Title)).Set "description"
            (.str item.Description)).Set "price" (.num item.Price), rfl, rfl, rfl, ?_⟩
          simp only [postItems, hB, hcoll, hsave]

theorem createAll_listed {σ : Type} (dao : Dao σ) (hmap : MapLike dao) (cs : List Context) :
    ∀ (s s' : σ) (created : List Record), createAll dao cs s = some (created, s') →
      created.length = cs.length ∧
      (∀ rs0, dao.FindRecordsByExpr s "items" = .ok rs0 →
        ∃ rsN, dao.FindRecordsByExpr s' "items" = .ok rsN ∧
          (∀ x ∈ rs0, x ∈ rsN) ∧ (∀ x ∈ rs0, ∀ r ∈ created, r.id ≠ x.id)) ∧
      (∀ rsN, dao.FindRecordsByExpr s' "items" = .ok rsN → ∀ r ∈ created, r ∈ rsN) ∧
      (created.map Record.id).Nodup := by
  induction cs with
  | nil =>
    intro s s' created h
    simp only [createAll, Option.some.injEq, Prod.mk.injEq] at h
    obtain ⟨h1, h2⟩ := h
    subst h1 h2
    refine ⟨rfl, ?_, ?_, List.nodup_nil⟩
    · intro rs0 h0
      exact ⟨rs0, h0, fun x hx => hx, fun x _ r hr => by cases hr⟩
    · intro rsN _ r hr
      cases hr
  | cons c cs ih =>
    intro s s' created h
    simp only [createAll] at h
    cases hc : createdRecord (postItems dao c s).result with
    | none => simp [hc] at h
    | some r1 =>
      simp only [hc] at h
      cases hrest : createAll dao cs (postItems dao c s).store with
      | none => simp [hrest] at h
      | some pr =>
        obtain ⟨rs, sN⟩ := pr
        simp only [hrest, Option.some.injEq, Prod.mk.injEq] at h
        obtain ⟨h1, h2⟩ := h
        subst h1 h2
        obtain ⟨record, hnew, hid, hcoll, hsave⟩ := postItems_created dao c s r1 hc
        obtain ⟨rs1, hl1, hmem1, hkeep⟩ :=
          hmap.list_save_new s record _ r1 "items" hnew hid hsave hcoll
        obtain ⟨hlen, hP1, hP2, hP3⟩ := ih _ _ _ hrest
        obtain ⟨rsN, hlN, hsub, hfresh⟩ := hP1 rs1 hl1
        refine ⟨by simp [hlen], ?_, ?_, ?_⟩
        · intro rs0 h0
          refine ⟨rsN, hlN, fun x hx => hsub x (hkeep rs0 h0 x hx).1, ?_⟩
          intro x hx r hr
          rcases List.mem_cons.mp hr with hr | hr
          · subst hr
            exact fun heq => (hkeep rs0 h0 x hx).2 heq.symm
          · exact hfresh x (hkeep rs0 h0 x hx).1 r hr
        · intro rsN' hlN' r hr
          have hEq : rsN' = rsN := by
            rw [hlN] at hlN'
            exact (Except.ok.inj hlN').symm
          subst hEq
          rcases List.mem_cons.mp hr with hr | hr
          · subst hr
            exact hsub _ hmem1
          · exact hP2 _ hlN r hr
        · simp only [List.map_cons, List.nodup_cons]
          refine ⟨?_, hP3⟩
          intro hin
          obtain ⟨r, hr, hrid⟩ := List.mem_map.mp hin
          exact hfresh r1 hmem1 r hr hrid

/-! ## The handlers, one by one -/

/-- C1: for every parsed payload `P` and every store state, `POST /items`
answers 500 with the message "Collection not found" and makes no call besides
the collection lookup when that lookup fails; otherwise it requests the save
of a new record of the found collection whose title, description and price
are those of `P`, and answers 500 with the text of the save error when the
save fails, 201 with the saved record when it succeeds. -/
theorem postItems_spec {σ : Type} (dao : Dao σ) (c : Context) (s : σ) (P : Item)
    (hP : c.Bind newItem = .ok P) :
    (∀ err, dao.FindCollectionByNameOrId s "items" = .error err →
      postItems dao c s =
        ⟨.ok ⟨500, message "Collection not found"⟩, [.findCollectionByNameOrId "items"], s⟩) ∧
    (∀ collection, dao.FindCollectionByNameOrId s "items" = .ok collection →
      ∃ record : Record,
        record.collection = collection ∧ record.id = "" ∧ record.isNew = true ∧
        record.Get "title" = some (.str P.Title) ∧
        record.Get "description" = some (.str P.Description) ∧
        record.Get "price" = some (.num P.Price) ∧
        (∀ s' err, dao.SaveRecord s record = (s', .error err) →
          postItems dao c s =
            ⟨.ok ⟨500, message err⟩,
              [.findCollectionByNameOrId "items", .saveRecord record], s'⟩) ∧
        (∀ s' saved, dao.SaveRecord s record = (s', .ok saved) →
          postItems dao c s =
            ⟨.ok ⟨201, .record saved⟩,
              [.findCollectionByNameOrId "items", .saveRecord record], s'⟩)) := by
  constructor
  · intro err h
    simp only [postItems, hP, h, JSON, StatusInternalServerError]
  · intro collection h
    refine ⟨(((NewRecord collection).Set "title" (.str P.Title)).Set
      "description" (.str P.Description)).Set "price" (.num P.Price),
      rfl, rfl, rfl, ?_, ?_, ?_, ?_, ?_⟩
    · rw [Record.Get_Set_other _ _ _ _ (by decide), Record.Get_Set_other _ _ _ _ (by decide),
        Record.Get_Set_self]
    · rw [Record.Get_Set_other _ _ _ _ (by decide), Record.Get_Set_self]
    · rw [Record.Get_Set_self]
    · intro s' err hs
      simp only [postItems, hP, h, hs, JSON, StatusInternalServerError]
    · intro s' saved hs
      simp only [postItems, hP, h, hs, JSON, StatusCreated]

/-- The request `POST /items` with title "Pen", description "Blue ink" and
price 1.5 (bit pattern 0x3FF8000000000000): on the store without any collection
and on the store holding `a1`, where the generated identifier is `rrr`. -/
theorem postItems_spec_witness :
    (⟨"", .ok ⟨some "Pen", some "Blue ink", some ⟨4609434218613702656⟩⟩⟩ : Context).Bind newItem
      = .ok ⟨"Pen", "Blue ink", ⟨4609434218613702656⟩⟩ ∧
    (postItems mapDao ⟨"", .ok ⟨some "Pen", some "Blue ink", some ⟨4609434218613702656⟩⟩⟩
      emptyStore).result = .ok ⟨500, message "Collection not found"⟩ ∧
    (postItems mapDao ⟨"", .ok ⟨some "Pen", some "Blue ink", some ⟨4609434218613702656⟩⟩⟩
      emptyStore).calls = [.findCollectionByNameOrId "items"] ∧
    (postItems mapDao ⟨"", .ok ⟨some "Pen", some "Blue ink", some ⟨4609434218613702656⟩⟩⟩
      penStore).result = .ok ⟨201, .record ⟨"rrr", itemsCollection, false,
        [("price", .num ⟨4609434218613702656⟩), ("description", .str "Blue ink"),
          ("title", .str "Pen")]⟩⟩ := by
  have h := (postItems_spec mapDao
    ⟨"", .ok ⟨some "Pen", some "Blue ink", some ⟨4609434218613702656⟩⟩⟩ emptyStore
    ⟨"Pen", "Blue ink", ⟨4609434218613702656⟩⟩ rfl).1 "sql: no rows in result set" rfl
  exact ⟨rfl, by rw [h], by rw [h], rfl⟩

/-- C2: for every path identifier and every store state, `GET /items/:id`
answers 404 with the message "Item not found" when the lookup of the identifier
within `items` fails, and 200 with exactly the record the lookup returned when
it succeeds. -/
theorem getItemById_spec {σ : Type} (dao : Dao σ) (id : String)
    (decoded : Except Error Payload) (s : σ) :
    (∀ err, dao.FindRecordById s "items" id = .error err →
      getItemById dao ⟨id, decoded⟩ s =
        ⟨.ok ⟨404, message "Item not found"⟩, [.findRecordById "items" id], s⟩) ∧
    (∀ record, dao.FindRecordById s "items" id = .ok record →
      getItemById dao ⟨id, decoded⟩ s =
        ⟨.ok ⟨200, .record record⟩, [.findRecordById "items" id], s⟩) := by
  exact ⟨fun err h => getItemById_of_error dao id decoded s err h,
    fun record h => getItemById_of_ok dao id decoded s record h⟩

/-- C4: for every path identifier and every store state, `DELETE /items/:id`
answers 404 with the message "Item not found" and makes no call besides the
lookup when the lookup fails; when it succeeds the handler requests the
deletion of the found record and answers 500 with the text of the delete error
when the deletion fails, 204 with an empty body when it succeeds. -/
theorem deleteItemById_spec {σ : Type} (dao : Dao σ) (id : String)
    (decoded : Except Error Payload) (s : σ) :
    (∀ err, dao.FindRecordById s "items" id = .error err →
      deleteItemById dao ⟨id, decoded⟩ s =
        ⟨.ok ⟨404, message "Item not found"⟩, [.findRecordById "items" id], s⟩) ∧
    (∀ record, dao.FindRecordById s "items" id = .ok record →
      (∀ s' err, dao.DeleteRecord s record = (s', .error err) →
        deleteItemById dao ⟨id, decoded⟩ s =
          ⟨.ok ⟨500, message err⟩,
            [.findRecordById "items" id, .deleteRecord record], s'⟩) ∧
      (∀ s', dao.DeleteRecord s record = (s', .ok ()) →
        deleteItemById dao ⟨id, decoded⟩ s =
          ⟨.ok ⟨204, Body.empty⟩,
            [.findRecordById "items" id, .deleteRecord record], s'⟩)) := by
  constructor
  · intro err h
    exact deleteItemById_of_error dao id decoded s err h
  · intro record h
    constructor
    · intro s' err hd
      simp [deleteItemById, Context.Param, h, hd, JSON, StatusInternalServerError]
    · intro s' hd
      exact deleteItemById_of_deleted dao id decoded s s' record h hd

/-- C5: when decoding the request body fails, `POST /items` and
`PUT /items/:id` return the decoding error, make no call on the store and
leave its state as it was, whatever the store holds; in particular the answer
of `PUT` is not the 404 response. -/
theorem bind_failure_short_circuits {σ : Type} (dao : Dao σ) (c : Context) (s : σ)
    (err : Error) (hBind : c.Bind newItem = .error err) :
    postItems dao c s = ⟨.error err, [], s⟩ ∧
    putItemById dao c s = ⟨.error err, [], s⟩ ∧
    (putItemById dao c s).result ≠ .ok ⟨404, message "Item not found"⟩ := by
  have h1 : postItems dao c s = ⟨.error err, [], s⟩ := by
    simp only [postItems, hBind]
  have h2 : putItemById dao c s = ⟨.error err, [], s⟩ := by
    simp only [putItemById, hBind]
  refine ⟨h1, h2, ?_⟩
  rw [h2]
  simp

/-- A `PUT` with a malformed body on an identifier the store does not hold. -/
theorem bind_failure_short_circuits_witness :
    (⟨"nope", .error "unexpected EOF"⟩ : Context).Bind newItem = .error "unexpected EOF" ∧
    mapDao.FindRecordById penStore "items" "nope" = .error "sql: no rows in result set" ∧
    (putItemById mapDao ⟨"nope", .error "unexpected EOF"⟩ penStore).result
      = .error "unexpected EOF" ∧
    (putItemById mapDao ⟨"nope", .error "unexpected EOF"⟩ penStore).calls = [] :=
  have h := bind_failure_short_circuits mapDao ⟨"nope", .error "unexpected EOF"⟩ penStore
    "unexpected EOF" rfl
  ⟨rfl, rfl, by rw [h.2.1], by rw [h.2.1]⟩

/-- C3: over a store that behaves as a map, for every identifier the store
holds and every body that decodes, `PUT /items/:id` requests the save of the
looked-up record with title, description and price set to those of the decoded
body, a member absent from the body giving the zero value (empty string, 0)
and not the value the record had; when that save succeeds the handler answers
200 with the saved record, whose three fields are those values, and a
`GET /items/:id` served next answers 200 with that same record. -/
theorem putItemById_overwrites {σ : Type} (dao : Dao σ) (hmap : MapLike dao)
    (id : String) (p : Payload) (s s' : σ) (old saved : Record)
    (hfind : dao.FindRecordById s "items" id = .ok old)
    (hsave : dao.SaveRecord s (((old.Set "title" (.str (p.title.getD ""))).Set
      "description" (.str (p.description.getD ""))).Set "price"
      (.num (p.price.getD ⟨0⟩))) = (s', .ok saved)) :
    putItemById dao ⟨id, .ok p⟩ s =
      ⟨.ok ⟨200, .record saved⟩,
        [.findRecordById "items" id,
          .saveRecord (((old.Set "title" (.str (p.title.getD ""))).Set
            "description" (.str (p.description.getD ""))).Set "price"
            (.num (p.price.getD ⟨0⟩)))], s'⟩ ∧
    saved.Get "title" = some (.str (p.title.getD "")) ∧
    saved.Get "description" = some (.str (p.description.getD "")) ∧
    saved.Get "price" = some (.num (p.price.getD ⟨0⟩)) ∧
    ∀ decoded, getItemById dao ⟨id, decoded⟩ s' =
      ⟨.ok ⟨200, .record saved⟩, [.findRecordById "items" id], s'⟩ := by
  have hBind : (⟨id, .ok p⟩ : Context).Bind newItem =
      .ok ⟨p.title.getD "", p.description.getD "", p.price.getD ⟨0⟩⟩ := rfl
  have hParam : (⟨id, .ok p⟩ : Context).Param "id" = id := rfl
  obtain ⟨hid, hnew, hcol⟩ := hmap.find_spec s "items" id old hfind
  obtain ⟨-, hdata, hkeep⟩ := hmap.save_spec s _ s' saved hsave
  have hsid : saved.id = id := by
    rw [hkeep hnew]
    exact hid
  have hget : ∀ k, saved.Get k = (((old.Set "title" (.str (p.title.getD ""))).Set
      "description" (.str (p.description.getD ""))).Set "price"
      (.num (p.price.getD ⟨0⟩))).Get k := by
    intro k
    simp only [Record.Get, hdata]
  have hlook := hmap.find_save s _ s' saved "items" hsave hcol
  rw [hsid] at hlook
  refine ⟨?_, ?_, ?_, ?_, ?_⟩
  · simp only [putItemById, hBind, hParam, hfind, hsave, JSON, StatusOK]
  · rw [hget, Record.Get_Set_other _ _ _ _ (by decide),
      Record.Get_Set_other _ _ _ _ (by decide), Record.Get_Set_self]
  · rw [hget, Record.Get_Set_other _ _ _ _ (by decide), Record.Get_Set_self]
  · rw [hget, Record.Get_Set_self]
  · intro decoded
    exact getItemById_of_ok dao id decoded s' saved hlook

/-- A `PUT /items/a1` whose body holds only `title`, on the store holding the
record `a1` with title "Pen", description "Blue ink" and price bits 15: the
answer is 200, description and price are overwritten with the zero values,
and the next `GET /items/a1` returns the overwritten record. -/
theorem putItemById_overwrites_witness :
    MapLike mapDao ∧
    mapDao.FindRecordById penStore "items" "a1" = .ok ⟨"a1", itemsCollection, false,
      [("price", .num ⟨15⟩), ("description", .str "Blue ink"), ("title", .str "Pen"),
        ("stock", .num ⟨7⟩)]⟩ ∧
    putItemById mapDao ⟨"a1", .ok ⟨some "Pencil", none, none⟩⟩ penStore =
      ⟨.ok ⟨200, .record ⟨"a1", itemsCollection, false,
          [("price", .num ⟨0⟩), ("description", .str ""), ("title", .str "Pencil"),
            ("stock", .num ⟨7⟩)]⟩⟩,
        [.findRecordById "items" "a1",
          .saveRecord ⟨"a1", itemsCollection, false,
            [("price", .num ⟨0⟩), ("description", .str ""), ("title", .str "Pencil"),
              ("stock", .num ⟨7⟩)]⟩],
        ⟨[itemsCollection], [⟨"a1", itemsCollection, false,
          [("price", .num ⟨0⟩), ("description", .str ""), ("title", .str "Pencil"),
            ("stock", .num ⟨7⟩)]⟩]⟩⟩ ∧
    (⟨"a1", itemsCollection, false,
      [("price", .num ⟨0⟩), ("description", .str ""), ("title", .str "Pencil"),
        ("stock", .num ⟨7⟩)]⟩ : Record).Get "description" = some (.str "") ∧
    ∀ decoded, getItemById mapDao ⟨"a1", decoded⟩
        ⟨[itemsCollection], [⟨"a1", itemsCollection, false,
          [("price", .num ⟨0⟩), ("description", .str ""), ("title", .str "Pencil"),
            ("stock", .num ⟨7⟩)]⟩]⟩ =
      ⟨.ok ⟨200, .record ⟨"a1", itemsCollection, false,
          [("price", .num ⟨0⟩), ("description", .str ""), ("title", .str "Pencil"),
            ("stock", .num ⟨7⟩)]⟩⟩,
        [.findRecordById "items" "a1"],
        ⟨[itemsCollection], [⟨"a1", itemsCollection, false,
          [("price", .num ⟨0⟩), ("description", .str ""), ("title", .str "Pencil"),
            ("stock", .num ⟨7⟩)]⟩]⟩⟩ :=
  have h := putItemById_overwrites mapDao mapDao_mapLike "a1" ⟨some "Pencil", none, none⟩
    penStore
    ⟨[itemsCollection], [⟨"a1", itemsCollection, false,
      [("price", .num ⟨0⟩), ("description", .str ""), ("title", .str "Pencil"),
        ("stock", .num ⟨7⟩)]⟩]⟩
    ⟨"a1", itemsCollection, false,
      [("price", .num ⟨15⟩), ("description", .str "Blue ink"), ("title", .str "Pen"),
        ("stock", .num ⟨7⟩)]⟩
    ⟨"a1", itemsCollection, false,
      [("price", .num ⟨0⟩), ("description", .str ""), ("title", .str "Pencil"),
        ("stock", .num ⟨7⟩)]⟩
    rfl rfl
  ⟨mapDao_mapLike, rfl, h.1, h.2.2.1, h.2.2.2.2⟩

/-- C6: over a store that behaves as a map, when `POST /items` with payload
`P` answers 201 the body is a record, and `GET /items/:id` with the identifier
of that record, served next, answers 200 with a record whose title,
description and price are those of `P`. -/
theorem post_then_get {σ : Type} (dao : Dao σ) (hmap : MapLike dao)
    (c : Context) (P : Item) (s : σ) (body : Body)
    (hP : c.Bind newItem = .ok P)
    (hpost : (postItems dao c s).result = .ok ⟨201, body⟩) :
    ∃ saved : Record,
      body = .record saved ∧
      saved.Get "title" = some (.str P.Title) ∧
      saved.Get "description" = some (.str P.Description) ∧
      saved.Get "price" = some (.num P.Price) ∧
      ∀ decoded, getItemById dao ⟨saved.id, decoded⟩ (postItems dao c s).store =
        ⟨.ok ⟨200, .record saved⟩, [.findRecordById "items" saved.id],
          (postItems dao c s).store⟩ := by
  cases hcoll : dao.FindCollectionByNameOrId s "items" with
  | error e =>
    simp [postItems, hP, hcoll, JSON, StatusInternalServerError] at hpost
  | ok collection =>
    cases hsave : dao.SaveRecord s ((((NewRecord collection).Set "title" (.str P.Title)).Set
        "description" (.str P.Description)).Set "price" (.num P.Price)) with
    | mk s' res =>
      cases res with
      | error e =>
        simp [postItems, hP, hcoll, hsave, JSON, StatusInternalServerError] at hpost
      | ok saved =>
        have hstore : (postItems dao c s).store = s' := by
          simp only [postItems, hP, hcoll, hsave]
        have hbody : body = .record saved := by
          simp only [postItems, hP, hcoll, hsave, JSON, StatusCreated,
            Except.ok.injEq, Response.mk.injEq, true_and] at hpost
          exact hpost.symm
        obtain ⟨-, hdata, -⟩ := hmap.save_spec s _ s' saved hsave
        have hget : ∀ k, saved.Get k = ((((NewRecord collection).Set "title"
            (.str P.Title)).Set "description" (.str P.Description)).Set "price"
            (.num P.Price)).Get k := by
          intro k
          simp only [Record.Get, hdata]
        have hlook := hmap.find_save s _ s' saved "items" hsave hcoll
        refine ⟨saved, hbody, ?_, ?_, ?_, ?_⟩
        · rw [hget, Record.Get_Set_other _ _ _ _ (by decide),
            Record.Get_Set_other _ _ _ _ (by decide), Record.Get_Set_self]
        · rw [hget, Record.Get_Set_other _ _ _ _ (by decide), Record.Get_Set_self]
        · rw [hget, Record.Get_Set_self]
        · intro decoded
          rw [hstore]
          simp [getItemById, Context.Param, hlook, JSON, StatusOK]

/-- The request `POST /items` with title "Pen", description "Blue ink" and price
bits 15 on the store holding `a1`; the generated identifier is `rrr`. -/
theorem post_then_get_witness :
    MapLike mapDao ∧
    (postItems mapDao ⟨"", .ok ⟨some "Pen", some "Blue ink", some ⟨15⟩⟩⟩ penStore).result =
      .ok ⟨201, .record ⟨"rrr", itemsCollection, false,
        [("price", .num ⟨15⟩), ("description", .str "Blue ink"), ("title", .str "Pen")]⟩⟩ ∧
    ∃ saved : Record,
      Body.record ⟨"rrr", itemsCollection, false,
        [("price", .num ⟨15⟩), ("description", .str "Blue ink"), ("title", .str "Pen")]⟩ =
        .record saved ∧
      saved.Get "title" = some (.str "Pen") ∧
      saved.Get "description" = some (.str "Blue ink") ∧
      saved.Get "price" = some (.num ⟨15⟩) ∧
      ∀ decoded, getItemById mapDao ⟨saved.id, decoded⟩
          (postItems mapDao ⟨"", .ok ⟨some "Pen", some "Blue ink", some ⟨15⟩⟩⟩ penStore).store =
        ⟨.ok ⟨200, .record saved⟩, [.findRecordById "items" saved.id],
          (postItems mapDao ⟨"", .ok ⟨some "Pen", some "Blue ink", some ⟨15⟩⟩⟩ penStore).store⟩ :=
  ⟨mapDao_mapLike, rfl,
    post_then_get mapDao mapDao_mapLike ⟨"", .ok ⟨some "Pen", some "Blue ink", some ⟨15⟩⟩⟩
      ⟨"Pen", "Blue ink", ⟨15⟩⟩ penStore _ rfl rfl⟩

/-- C7: over a store that behaves as a map, for every identifier the store
holds `DELETE /items/:id` answers 204 with an empty body, after which both
`GET /items/:id` and a second `DELETE /items/:id` answer 404 with the message
"Item not found". -/
theorem delete_then_not_found {σ : Type} (dao : Dao σ) (hmap : MapLike dao)
    (id : String) (s : σ) (old : Record) (d1 d2 d3 : Except Error Payload)
    (hfind : dao.FindRecordById s "items" id = .ok old) :
    (deleteItemById dao ⟨id, d1⟩ s).result = .ok ⟨204, Body.empty⟩ ∧
    (getItemById dao ⟨id, d2⟩ (deleteItemById dao ⟨id, d1⟩ s).store).result =
      .ok ⟨404, message "Item not found"⟩ ∧
    (deleteItemById dao ⟨id, d3⟩ (deleteItemById dao ⟨id, d1⟩ s).store).result =
      .ok ⟨404, message "Item not found"⟩ := by
  obtain ⟨s', hdel⟩ := hmap.delete_ok s "items" id old hfind
  obtain ⟨e, hgone⟩ := hmap.find_delete s "items" id old s' hfind hdel
  rw [deleteItemById_of_deleted dao id d1 s s' old hfind hdel]
  refine ⟨rfl, ?_, ?_⟩
  · rw [getItemById_of_error dao id d2 s' e hgone]
  · rw [deleteItemById_of_error dao id d3 s' e hgone]

/-- Deleting `a1` from the store that holds it. -/
theorem delete_then_not_found_witness :
    MapLike mapDao ∧
    mapDao.FindRecordById penStore "items" "a1" = .ok ⟨"a1", itemsCollection, false,
      [("price", .num ⟨15⟩), ("description", .str "Blue ink"), ("title", .str "Pen"),
        ("stock", .num ⟨7⟩)]⟩ ∧
    (deleteItemById mapDao ⟨"a1", .ok ⟨none, none, none⟩⟩ penStore).result =
      .ok ⟨204, Body.empty⟩ ∧
    (getItemById mapDao ⟨"a1", .ok ⟨none, none, none⟩⟩
      (deleteItemById mapDao ⟨"a1", .ok ⟨none, none, none⟩⟩ penStore).store).result =
      .ok ⟨404, message "Item not found"⟩ ∧
    (deleteItemById mapDao ⟨"a1", .ok ⟨none, none, none⟩⟩
      (deleteItemById mapDao ⟨"a1", .ok ⟨none, none, none⟩⟩ penStore).store).result =
      .ok ⟨404, message "Item not found"⟩ :=
  ⟨mapDao_mapLike, rfl,
    delete_then_not_found mapDao mapDao_mapLike "a1" penStore _ _ _ _ rfl⟩

/-- C9: for every store state, `GET /items` answers 500 with the text of the
store error when listing the records of `items` fails, and otherwise 200 with
exactly the sequence the store returned; hence, over a store that behaves as a
map, after N requests `POST /items` answered 201 the sequence returned
contains each of the N records created, which carry N distinct identifiers, so
the sequence has at least N members. -/
theorem getItems_spec {σ : Type} (dao : Dao σ) (c : Context) (s : σ) :
    (∀ err, dao.FindRecordsByExpr s "items" = .error err →
      getItems dao c s =
        ⟨.ok ⟨500, message err⟩, [.findRecordsByExpr "items"], s⟩) ∧
    (∀ records, dao.FindRecordsByExpr s "items" = .ok records →
      getItems dao c s =
        ⟨.ok ⟨200, .records records⟩, [.findRecordsByExpr "items"], s⟩) ∧
    (MapLike dao → ∀ (cs : List Context) (created : List Record) (s' : σ),
      createAll dao cs s = some (created, s') →
      ∀ records, (getItems dao c s').result = .ok ⟨200, .records records⟩ →
        created.length = cs.length ∧ (∀ r ∈ created, r ∈ records) ∧
        (created.map Record.id).Nodup ∧ cs.length ≤ records.length) := by
  refine ⟨?_, ?_, ?_⟩
  · intro err h
    simp only [getItems, h, JSON, StatusInternalServerError]
  · intro records h
    simp only [getItems, h, JSON, StatusOK]
  · intro hmap cs created s' hall records hget
    have hl := getItems_result_ok dao c s' records hget
    obtain ⟨hlen, -, hin, hnd⟩ := createAll_listed dao hmap cs s s' created hall
    refine ⟨hlen, hin records hl, hnd, ?_⟩
    have hnd' : created.Nodup := List.Nodup.of_map Record.id hnd
    have hsub : created ⊆ records := fun r hr => hin records hl r hr
    rw [← hlen]
    exact (List.Nodup.subperm hnd' hsub).length_le

/-- Two creates on the store holding `a1`, then the listing: three records,
the two created ones under the generated identifiers `rrr` and `rrrr`. -/
theorem getItems_spec_witness :
    createAll mapDao
      [⟨"", .ok ⟨some "Pen", some "Blue ink", some ⟨15⟩⟩⟩, ⟨"", .ok ⟨some "Ink", none, none⟩⟩]
      penStore =
      some ([⟨"rrr", itemsCollection, false,
          [("price", .num ⟨15⟩), ("description", .str "Blue ink"), ("title", .str "Pen")]⟩,
        ⟨"rrrr", itemsCollection, false,
          [("price", .num ⟨0⟩), ("description", .str ""), ("title", .str "Ink")]⟩],
        ⟨[itemsCollection],
          penStore.records ++ [⟨"rrr", itemsCollection, false,
            [("price", .num ⟨15⟩), ("description", .str "Blue ink"), ("title", .str "Pen")]⟩,
          ⟨"rrrr", itemsCollection, false,
            [("price", .num ⟨0⟩), ("description", .str ""), ("title", .str "Ink")]⟩]⟩) ∧
    2 ≤ (penStore.records ++ [(⟨"rrr", itemsCollection, false,
            [("price", .num ⟨15⟩), ("description", .str "Blue ink"), ("title", .str "Pen")]⟩ :
            Record),
          ⟨"rrrr", itemsCollection, false,
            [("price", .num ⟨0⟩), ("description", .str ""), ("title", .str "Ink")]⟩]).length :=
  ⟨rfl,
    ((getItems_spec mapDao ⟨"", .ok ⟨none, none, none⟩⟩ penStore).2.2 mapDao_mapLike
      [⟨"", .ok ⟨some "Pen", some "Blue ink", some ⟨15⟩⟩⟩, ⟨"", .ok ⟨some "Ink", none, none⟩⟩]
      _ _ rfl _ rfl).2.2.2⟩

/-- C8, as stated, fails: in the store without any collection every collection
lookup, record lookup and listing fails, and `GET /items/:id`, `DELETE /items/:id`
and `PUT /items/:id` answer 404, not 500. -/
theorem collection_missing_is_not_always_500 :
    mapDao.FindCollectionByNameOrId emptyStore "items" = .error "sql: no rows in result set" ∧
    (∀ id, mapDao.FindRecordById emptyStore "items" id = .error "sql: no rows in result set") ∧
    mapDao.FindRecordsByExpr emptyStore "items" = .error "sql: no rows in result set" ∧
    (getItemById mapDao ⟨"a1", .ok ⟨none, none, none⟩⟩ emptyStore).result =
      .ok ⟨404, message "Item not found"⟩ ∧
    (deleteItemById mapDao ⟨"a1", .ok ⟨none, none, none⟩⟩ emptyStore).result =
      .ok ⟨404, message "Item not found"⟩ ∧
    (putItemById mapDao ⟨"a1", .ok ⟨some "Pen", none, none⟩⟩ emptyStore).result =
      .ok ⟨404, message "Item not found"⟩ ∧
    ¬ ∃ body, (getItemById mapDao ⟨"a1", .ok ⟨none, none, none⟩⟩ emptyStore).result =
      .ok ⟨500, body⟩ := by
  refine ⟨rfl, fun _ => rfl, rfl, rfl, rfl, rfl, ?_⟩
  rintro ⟨body, h⟩
  have h404 : (getItemById mapDao ⟨"a1", .ok ⟨none, none, none⟩⟩ emptyStore).result =
      .ok ⟨404, message "Item not found"⟩ := rfl
  rw [h404] at h
  simp at h

/-- C8, amended: when the collection `items` does not exist, so that the
collection lookup, every record lookup and the listing fail, `POST /items` with
a body that decodes and `GET /items` answer 500, while `GET /items/:id`,
`DELETE /items/:id` and `PUT /items/:id` with a body that decodes answer 404
with the message "Item not found". -/
theorem collection_missing_responses {σ : Type} (dao : Dao σ) (s : σ)
    (c c' : Context) (P : Item) (e1 e3 : Error)
    (hP : c.Bind newItem = .ok P)
    (hcoll : dao.FindCollectionByNameOrId s "items" = .error e1)
    (hrec : ∀ id, ∃ e, dao.FindRecordById s "items" id = .error e)
    (hlist : dao.FindRecordsByExpr s "items" = .error e3) :
    (postItems dao c s).result = .ok ⟨500, message "Collection not found"⟩ ∧
    (getItems dao c' s).result = .ok ⟨500, message e3⟩ ∧
    (getItemById dao c' s).result = .ok ⟨404, message "Item not found"⟩ ∧
    (deleteItemById dao c' s).result = .ok ⟨404, message "Item not found"⟩ ∧
    (putItemById dao c s).result = .ok ⟨404, message "Item not found"⟩ := by
  obtain ⟨e2, h2⟩ := hrec c'.id
  obtain ⟨e4, h4⟩ := hrec c.id
  refine ⟨?_, ?_, ?_, ?_, ?_⟩
  · simp only [postItems, hP, hcoll, JSON, StatusInternalServerError]
  · simp only [getItems, hlist, JSON, StatusInternalServerError]
  · obtain ⟨id, decoded⟩ := c'
    rw [getItemById_of_error dao id decoded s e2 h2]
  · obtain ⟨id, decoded⟩ := c'
    rw [deleteItemById_of_error dao id decoded s e2 h2]
  · have hParam : c.Param "id" = c.id := by simp [Context.Param]
    simp only [putItemById, hP, hParam, h4, JSON, StatusNotFound]

/-- The five requests on the store without any collection. -/
theorem collection_missing_responses_witness :
    (postItems mapDao ⟨"a1", .ok ⟨some "Pen", none, none⟩⟩ emptyStore).result =
      .ok ⟨500, message "Collection not found"⟩ ∧
    (getItems mapDao ⟨"a1", .error "EOF"⟩ emptyStore).result =
      .ok ⟨500, message "sql: no rows in result set"⟩ ∧
    (getItemById mapDao ⟨"a1", .error "EOF"⟩ emptyStore).result =
      .ok ⟨404, message "Item not found"⟩ ∧
    (deleteItemById mapDao ⟨"a1", .error "EOF"⟩ emptyStore).result =
      .ok ⟨404, message "Item not found"⟩ ∧
    (putItemById mapDao ⟨"a1", .ok ⟨some "Pen", none, none⟩⟩ emptyStore).result =
      .ok ⟨404, message "Item not found"⟩ :=
  collection_missing_responses mapDao emptyStore ⟨"a1", .ok ⟨some "Pen", none, none⟩⟩
    ⟨"a1", .error "EOF"⟩ ⟨"Pen", "", ⟨0⟩⟩ "sql: no rows in result set"
    "sql: no rows in result set" rfl rfl (fun _ => ⟨_, rfl⟩) rfl

/-- C10: `PUT /items/:id` requests no save when the lookup fails, and every
save it requests is of a record with the identifier, the collection and the
persistence flag of the record it looked up and with every field other than
title, description and price as looked up; `GET /items/:id` and `GET /items`
request neither a save nor a delete and leave the store state as it was. -/
theorem putItemById_frame {σ : Type} (dao : Dao σ) (c : Context) (s : σ) :
    (∀ err, dao.FindRecordById s "items" c.id = .error err →
      ∀ call ∈ (putItemById dao c s).calls, call.isSave = false) ∧
    (∀ r, DaoCall.saveRecord r ∈ (putItemById dao c s).calls →
      ∃ old, dao.FindRecordById s "items" c.id = .ok old ∧
        r.id = old.id ∧ r.collection = old.collection ∧ r.isNew = old.isNew ∧
        ∀ k, k ≠ "title" → k ≠ "description" → k ≠ "price" → r.Get k = old.Get k) ∧
    ((∀ call ∈ (getItemById dao c s).calls, call.isSave = false ∧ call.isDelete = false) ∧
      (getItemById dao c s).store = s) ∧
    ((∀ call ∈ (getItems dao c s).calls, call.isSave = false ∧ call.isDelete = false) ∧
      (getItems dao c s).store = s) := by
  have hParam : c.Param "id" = c.id := by simp [Context.Param]
  refine ⟨?_, ?_, ?_, ?_⟩
  · intro err h call hcall
    cases hB : c.Bind newItem with
    | error e => simp [putItemById, hB] at hcall
    | ok item =>
      simp only [putItemById, hB, hParam, h, List.mem_singleton] at hcall
      subst hcall
      rfl
  · intro r hr
    cases hB : c.Bind newItem with
    | error e => simp [putItemById, hB] at hr
    | ok item =>
      cases hfind : dao.FindRecordById s "items" c.id with
      | error e => simp [putItemById, hB, hParam, hfind] at hr
      | ok old =>
        have hcalls : (putItemById dao c s).calls =
            [.findRecordById "items" c.id,
              .saveRecord (((old.Set "title" (.str item.Title)).Set "description"
                (.str item.Description)).Set "price" (.num item.Price))] := by
          simp only [putItemById, hB, hParam, hfind]
          split <;> rfl
        rw [hcalls] at hr
        simp only [List.mem_cons, List.mem_singleton, DaoCall.saveRecord.injEq,
          List.mem_nil_iff, or_false, false_or, reduceCtorEq] at hr
        subst hr
        refine ⟨old, rfl, rfl, rfl, rfl, ?_⟩
        intro k h1 h2 h3
        rw [Record.Get_Set_other _ _ _ _ h3, Record.Get_Set_other _ _ _ _ h2,
          Record.Get_Set_other _ _ _ _ h1]
  · have hcalls : (getItemById dao c s).calls = [.findRecordById "items" c.id] ∧
        (getItemById dao c s).store = s := by
      simp only [getItemById, hParam]
      split <;> exact ⟨rfl, rfl⟩
    refine ⟨?_, hcalls.2⟩
    intro call hcall
    rw [hcalls.1, List.mem_singleton] at hcall
    subst hcall
    exact ⟨rfl, rfl⟩
  · have hcalls : (getItems dao c s).calls = [.findRecordsByExpr "items"] ∧
        (getItems dao c s).store = s := by
      simp only [getItems]
      split <;> exact ⟨rfl, rfl⟩
    refine ⟨?_, hcalls.2⟩
    intro call hcall
    rw [hcalls.1, List.mem_singleton] at hcall
    subst hcall
    exact ⟨rfl, rfl⟩

/-- The save requested by `PUT /items/a1` on the store holding `a1`: the field
`stock`, the identifier and the collection are those of the stored record. -/
theorem putItemById_frame_witness :
    (putItemById mapDao ⟨"a1", .ok ⟨some "Pencil", none, none⟩⟩ penStore).calls =
      [.findRecordById "items" "a1",
        .saveRecord ⟨"a1", itemsCollection, false,
          [("price", .num ⟨0⟩), ("description", .str ""), ("title", .str "Pencil"),
            ("stock", .num ⟨7⟩)]⟩] ∧
    ∃ old, mapDao.FindRecordById penStore "items" "a1" = .ok old ∧
      "a1" = old.id ∧ itemsCollection = old.collection ∧ false = old.isNew ∧
      ∀ k, k ≠ "title" → k ≠ "description" → k ≠ "price" →
        (⟨"a1", itemsCollection, false,
          [("price", .num ⟨0⟩), ("description", .str ""), ("title", .str "Pencil"),
            ("stock", .num ⟨7⟩)]⟩ : Record).Get k = old.Get k :=
  ⟨rfl, (putItemById_frame mapDao ⟨"a1", .ok ⟨some "Pencil", none, none⟩⟩ penStore).2.1
    ⟨"a1", itemsCollection, false,
      [("price", .num ⟨0⟩), ("description", .str ""), ("title", .str "Pencil"),
        ("stock", .num ⟨7⟩)]⟩ (by decide)⟩

end CrudWebsite
